import Mathlib

/-!
Verification of the ingestion-classification-deduplication pipeline of
`channel_bot.py` (a Telegram channel bot aggregating junior/middle remote IT
job postings).

The Python functions are shallowly embedded as executable Lean definitions:

* Python `dict` job records become the `Job` structure (keys that the code
  reads with `dict.get` become `Option` fields; `title`, `company` and
  `source`, which the code reads with mandatory indexing and which every
  adapter always sets, are total fields);
* Python strings are Lean `String` (sequences of Unicode code points, matching
  Python's code-point semantics for `len`, slicing and comparison);
* Python's Unicode case operations (`str.lower`, `str.title`) are modelled by
  their ASCII restrictions, which agree with Python on all ASCII text;
* the SQLite table `posted_jobs` becomes a list of `PostedRecord`, and
  `datetime.now()` becomes an explicitly injected integer timestamp in
  seconds;
* `hashlib.sha256` / `hashlib.md5` are implemented bit-faithfully over byte
  lists with `Nat` arithmetic modulo `2 ^ 32`.
-/

/-! ## Python string primitives -/

/-- Characters stripped by Python `str.strip()` (ASCII whitespace). -/
def pyWhitespace : List Char := [' ', '\t', '\n', '\r', '\x0b', '\x0c']

/-- Python `str.strip()`: remove leading and trailing whitespace. -/
def pyStrip (s : String) : String :=
  ⟨((s.data.dropWhile (fun c => c ∈ pyWhitespace)).reverse.dropWhile
      (fun c => c ∈ pyWhitespace)).reverse⟩

/-- Python `str.lower()` restricted to ASCII (`Char.toLower` lowers A-Z). -/
def pyLower (s : String) : String := ⟨s.data.map Char.toLower⟩

/-- Substring test on character lists: does `needle` occur contiguously? -/
def containsSub (needle : List Char) : List Char → Bool
  | [] => needle.isEmpty
  | c :: rest => needle.isPrefixOf (c :: rest) || containsSub needle rest

/-- Python `needle in hay` on strings (contiguous substring containment). -/
def pyIn (needle hay : String) : Bool := containsSub needle.data hay.data

/-- Python `s.startswith(pre)`. -/
def pyStartsWith (s pre : String) : Bool := pre.data.isPrefixOf s.data

/-- One step of Python `str.title()` (ASCII model): an alphabetic character is
uppercased when the previous character was not alphabetic, lowercased
otherwise; the Boolean argument records whether the previous character was
alphabetic. -/
def pyTitleGo : Bool → List Char → List Char
  | _, [] => []
  | prevAlpha, c :: rest =>
    if c.isAlpha then
      (if prevAlpha then c.toLower else c.toUpper) :: pyTitleGo true rest
    else
      c :: pyTitleGo false rest

/-- Python `str.title()` (ASCII model). -/
def pyTitle (s : String) : String := ⟨pyTitleGo false s.data⟩

/-- Python `a or b` on integers (an `int` is falsy exactly when it is `0`). -/
def pyOrInt (a b : Int) : Int := if a ≠ 0 then a else b

/-- Python `a or b` on strings (a `str` is falsy exactly when it is empty);
an absent value (`None`) is modelled as the empty string, which is falsy in
exactly the same way. -/
def pyOrStr (a b : String) : String := if a ≠ "" then a else b

/-- Python `sep.join(parts)`. -/
def pyJoin (sep : String) : List String → String
  | [] => ""
  | [p] => p
  | p :: rest => p ++ sep ++ pyJoin sep rest

/-- Insert a thousands separator into a reversed digit list: after every three
digits (counted from the least significant end) a comma is placed. -/
def groupRev : List Char → List Char
  | d1 :: d2 :: d3 :: d4 :: rest => d1 :: d2 :: d3 :: ',' :: groupRev (d4 :: rest)
  | l => l

/-- Python `f"{n:,}"` for a natural number: decimal digits with `,` as the
thousands separator. -/
def commaNat (n : Nat) : String := ⟨(groupRev (Nat.toDigits 10 n).reverse).reverse⟩

/-- Python `f"{n:,}"` for an integer. -/
def commaInt (n : Int) : String :=
  if n < 0 then "-" ++ commaNat n.natAbs else commaNat n.natAbs

/-! ## Keyword lists (module-level constants of `channel_bot.py`) -/

/-- `JUNIOR_SIGNALS` from `channel_bot.py`. -/
def JUNIOR_SIGNALS : List String :=
  ["junior", "jr", "jr.", "entry level", "entry-level", "entry",
   "trainee", "graduate", "начинающий", "начальный",
   "0-1 year", "0-2 years", "1 year", "1+ year", "1-2 years",
   "no experience", "без опыта", "beginner"]

/-- `MIDDLE_SIGNALS` from `channel_bot.py`. -/
def MIDDLE_SIGNALS : List String :=
  ["middle", "mid-level", "mid level", "intermediate",
   "2-3 years", "2-4 years", "3-5 years", "2+ years", "3+ years"]

/-- `EXCLUDE_SIGNALS` from `channel_bot.py`. -/
def EXCLUDE_SIGNALS : List String :=
  ["senior", "sr.", "sr ", "lead", "principal", "staff engineer",
   "architect", "head of", "director", "manager", "vp",
   "vice president", "cto", "cfo", "chief", "c-level",
   "старший", "ведущий", "руководитель", "главный"]

/-- `IT_ROLES` from `channel_bot.py`. -/
def IT_ROLES : List String :=
  ["developer", "engineer", "programmer", "designer", "qa", "tester",
   "analyst", "frontend", "backend", "full-stack", "fullstack",
   "devops", "product manager", "data scientist", "data analyst",
   "mobile", "ios", "android", "react", "vue", "angular",
   "python", "javascript", "java", "php", "ruby", "go", "rust",
   "node", "web developer", "software", "support engineer",
   "разработчик", "программист", "инженер", "тестировщик"]

/-- `REMOTE_KEYWORDS` from `channel_bot.py`. -/
def REMOTE_KEYWORDS : List String :=
  ["remote", "удаленно", "удалённо", "work from home", "дистанционно", "wfh"]

/-- `TECH_STACK` from `channel_bot.py`. -/
def TECH_STACK : List String :=
  ["Python", "JavaScript", "TypeScript", "React", "Vue", "Angular",
   "Node.js", "Django", "Flask", "FastAPI", "Express", "Next.js",
   "PostgreSQL", "MongoDB", "MySQL", "Redis", "SQLite",
   "Docker", "Kubernetes", "AWS", "Azure", "GCP",
   "Git", "CI/CD", "REST API", "GraphQL",
   "HTML", "CSS", "SASS", "Tailwind",
   "Figma", "Sketch",
   "Java", "C#", "Go", "Rust", "PHP", "Ruby", "Swift", "Kotlin"]

/-! ## The job record -/

/-- A provider-normalized job record (a Python `dict` produced by the source
adapters). `title`, `company` and `source` are set by every adapter and are
read by the code with mandatory indexing, so they are total fields; every
other key is read with `dict.get` and is an `Option`. Numeric salary bounds
are modelled as integers; `tags` is modelled as a list of strings (the code
silently skips non-string tags, which the model therefore omits). The field
`etype` models the dictionary key `"type"`. -/
structure Job where
  title : String
  company : String
  source : String
  description : Option String := none
  url : Option String := none
  salary : Option String := none
  minSalary : Option Int := none
  maxSalary : Option Int := none
  salary_min : Option Int := none
  salary_max : Option Int := none
  currency : Option String := none
  location : Option String := none
  employment_type : Option String := none
  etype : Option String := none
  job_type : Option String := none
  contract_type : Option String := none
  published : Option String := none
  created : Option String := none
  publication_date : Option String := none
  date_published : Option String := none
  tags : List String := []
  level : Option String := none
  deriving DecidableEq, Repr

/-- The lowercased `title description` text that `classify_job_level`,
`is_suitable_job` and `extract_skills` all compute: Python
`f"{title} {description}".lower()`. -/
def jobText (job : Job) : String :=
  pyLower (job.title ++ " " ++ job.description.getD "")

/-! ## Classifier -/

/-- `classify_job_level` from `channel_bot.py`: `none` is the excluded
outcome (Python `None`), otherwise `"Junior"` or `"Middle"`. -/
def classify_job_level (job : Job) : Option String :=
  let full_text := jobText job
  if EXCLUDE_SIGNALS.any (fun word => pyIn word full_text) then none
  else if JUNIOR_SIGNALS.any (fun sig => pyIn sig full_text) then some "Junior"
  else if MIDDLE_SIGNALS.any (fun sig => pyIn sig full_text) then some "Middle"
  else if IT_ROLES.any (fun role => pyIn role full_text) then some "Junior"
  else none

/-- `is_suitable_job` from `channel_bot.py`: a remote-work keyword and an
IT-role keyword must both occur in the job text. -/
def is_suitable_job (job : Job) : Bool :=
  let text := jobText job
  (REMOTE_KEYWORDS.any (fun kw => pyIn kw text)) &&
    (IT_ROLES.any (fun role => pyIn role text))

/-! ## Salary extraction -/

/-- `extract_salary` from `channel_bot.py`. -/
def extract_salary (job : Job) : String :=
  let salary_raw := job.salary.getD ""
  if salary_raw ≠ "" ∧ salary_raw ∉ (["", "Not specified", "Не указана"] : List String) then
    salary_raw
  else
    let min_sal := pyOrInt (job.minSalary.getD 0) (job.salary_min.getD 0)
    let max_sal := pyOrInt (job.maxSalary.getD 0) (job.salary_max.getD 0)
    if min_sal ≠ 0 ∧ max_sal ≠ 0 ∧ (min_sal > 0 ∨ max_sal > 0) then
      if min_sal > 0 ∧ max_sal > 0 then
        "$" ++ commaInt min_sal ++ "-$" ++ commaInt max_sal ++ " " ++ job.currency.getD "USD"
      else if max_sal > 0 then
        "до $" ++ commaInt max_sal ++ " " ++ job.currency.getD "USD"
      else "Не указана"
    else "Не указана"

example : commaNat 3000 = "3,000" := by decide
example : commaNat 0 = "0" := by decide
example : commaInt 1234567 = "1,234,567" := by decide

/-! ## Python string ordering

Python compares strings lexicographically by Unicode code point; this is the
order `sorted` uses in `extract_skills`. -/

/-- Lexicographic-by-code-point comparison `a <= b` on character lists. -/
def charListLe : List Char → List Char → Bool
  | [], _ => true
  | _ :: _, [] => false
  | a :: as, b :: bs =>
    if a.toNat < b.toNat then true
    else if b.toNat < a.toNat then false
    else charListLe as bs

/-- Python `a <= b` on strings. -/
def pyStrLe (a b : String) : Bool := charListLe a.data b.data

/-- The Python ascending string order used by `sorted`, as a relation. -/
def pyLe (a b : String) : Prop := pyStrLe a b = true

instance : DecidableRel pyLe :=
  fun a b => inferInstanceAs (Decidable (pyStrLe a b = true))

/-- Unfolding of a successful comparison on cons cells. -/
theorem charListLe_le (x y : Char) (xs ys : List Char)
    (h : charListLe (x :: xs) (y :: ys) = true) :
    x.toNat < y.toNat ∨ (x.toNat = y.toNat ∧ charListLe xs ys = true) := by
  simp only [charListLe] at h
  by_cases h1 : x.toNat < y.toNat
  · exact Or.inl h1
  · by_cases h2 : y.toNat < x.toNat
    · simp [h1, h2] at h
    · exact Or.inr ⟨by omega, by simpa [h1, h2] using h⟩

/-- Constructor for a successful comparison on cons cells. -/
theorem charListLe_cons (x y : Char) (xs ys : List Char)
    (h : x.toNat < y.toNat ∨ (x.toNat = y.toNat ∧ charListLe xs ys = true)) :
    charListLe (x :: xs) (y :: ys) = true := by
  simp only [charListLe]
  rcases h with h | ⟨he, hr⟩
  · simp [h]
  · simp [show ¬ x.toNat < y.toNat by omega, show ¬ y.toNat < x.toNat by omega, hr]

/-- The comparison is total. -/
theorem charListLe_total : ∀ (a b : List Char),
    charListLe a b = true ∨ charListLe b a = true
  | [], _ => Or.inl rfl
  | _ :: _, [] => Or.inr rfl
  | x :: xs, y :: ys => by
    by_cases h1 : x.toNat < y.toNat
    · exact Or.inl (charListLe_cons x y xs ys (Or.inl h1))
    · by_cases h2 : y.toNat < x.toNat
      · exact Or.inr (charListLe_cons y x ys xs (Or.inl h2))
      · rcases charListLe_total xs ys with h | h
        · exact Or.inl (charListLe_cons x y xs ys (Or.inr ⟨by omega, h⟩))
        · exact Or.inr (charListLe_cons y x ys xs (Or.inr ⟨by omega, h⟩))

/-- The comparison is transitive. -/
theorem charListLe_trans : ∀ (a b c : List Char), charListLe a b = true →
    charListLe b c = true → charListLe a c = true
  | [], _, _, _, _ => rfl
  | _ :: _, [], _, hab, _ => by simp [charListLe] at hab
  | _ :: _, _ :: _, [], _, hbc => by simp [charListLe] at hbc
  | x :: xs, y :: ys, z :: zs, hab, hbc => by
    rcases charListLe_le x y xs ys hab with h1 | ⟨h1, h1r⟩ <;>
      rcases charListLe_le y z ys zs hbc with h2 | ⟨h2, h2r⟩
    · exact charListLe_cons x z xs zs (Or.inl (by omega))
    · exact charListLe_cons x z xs zs (Or.inl (by omega))
    · exact charListLe_cons x z xs zs (Or.inl (by omega))
    · exact charListLe_cons x z xs zs
        (Or.inr ⟨by omega, charListLe_trans xs ys zs h1r h2r⟩)

instance : IsTotal String pyLe := ⟨fun a b => charListLe_total a.data b.data⟩

instance : IsTrans String pyLe := ⟨fun a b c => charListLe_trans a.data b.data c.data⟩

/-! ## Skills extraction -/

/-- Add a string to a Python-set model (a duplicate-free list): inserted only
when not already present. -/
def addIfNew (l : List String) (s : String) : List String :=
  if s ∈ l then l else l ++ [s]

/-- The set of skills accumulated by `extract_skills` before sorting and
truncation: provider tags shorter than 25 characters, stripped and
title-cased, together with every `TECH_STACK` keyword occurring
case-insensitively in the job text. -/
def skillsSet (job : Job) : List String :=
  let tagSkills := job.tags.foldl
    (fun acc tag => if tag.length < 25 then addIfNew acc (pyTitle (pyStrip tag)) else acc) []
  let text := jobText job
  TECH_STACK.foldl
    (fun acc tech => if pyIn (pyLower tech) text then addIfNew acc tech else acc) tagSkills

/-- `extract_skills` from `channel_bot.py`: Python `sorted(list(skills))[:5]`.
Python sorts strings ascending lexicographically by code point (`pyLe`); on a
duplicate-free list any sorting algorithm produces the same output, so Python
`sorted` is modelled by insertion sort. -/
def extract_skills (job : Job) : List String :=
  (List.insertionSort pyLe (skillsSet job)).take 5

/-! ## Description extraction -/

/-- One step of the model of the regex substitution `re.sub(r'<[^>]+>', '', desc)`:
a `<` followed (possibly after further non-`>` characters) by a `>` with at
least one character in between is removed together with everything up to and
including that `>`; any other character is kept. The first argument is
recursion fuel: the list shrinks by at least one character per step, so any
fuel of at least the list length gives the untruncated result (the fuel keeps
the recursion structural and hence kernel-computable). -/
def stripTagsGo : Nat → List Char → List Char
  | 0, _ => []
  | _, [] => []
  | fuel + 1, c :: rest =>
    if c = '<' then
      match rest.findIdx? (fun x => x = '>') with
      | some i =>
        if 1 ≤ i then stripTagsGo fuel (rest.drop (i + 1)) else c :: stripTagsGo fuel rest
      | none => c :: stripTagsGo fuel rest
    else c :: stripTagsGo fuel rest

/-- The regex substitution `re.sub(r'<[^>]+>', '', desc)` of
`extract_description`. -/
def stripTags (l : List Char) : List Char := stripTagsGo l.length l

/-- Python `str.split()` (no separator): the maximal whitespace-free words, in
order; the first argument accumulates the current word in reverse. -/
def pyWordsAux : List Char → List Char → List (List Char)
  | acc, [] => if acc.isEmpty then [] else [acc.reverse]
  | acc, c :: rest =>
    if c ∈ pyWhitespace then
      if acc.isEmpty then pyWordsAux [] rest else acc.reverse :: pyWordsAux [] rest
    else pyWordsAux (c :: acc) rest

/-- `extract_description` from `channel_bot.py`: strip HTML tags, collapse
whitespace, truncate to `max_length` characters at a word boundary with an
ellipsis, and fall back to a sentinel when empty. -/
def extract_description (job : Job) (max_length : Nat := 350) : String :=
  let desc0 := job.description.getD ""
  let stripped := stripTags desc0.data
  let joined := pyJoin " " ((pyWordsAux [] stripped).map (fun w => (⟨w⟩ : String)))
  let desc :=
    if joined.length > max_length then
      let t := joined.data.take max_length
      let cut := if ' ' ∈ t then ((t.reverse.dropWhile (fun c => c ≠ ' ')).drop 1).reverse else t
      (⟨cut⟩ : String) ++ "..."
    else joined
  if desc ≠ "" then desc else "Описание не указано"

/-! ## Employment type and posting date -/

/-- `extract_employment_type` from `channel_bot.py`. -/
def extract_employment_type (job : Job) : String :=
  let emp := pyOrStr (pyOrStr (pyOrStr (job.employment_type.getD "") (job.etype.getD ""))
    (job.job_type.getD "")) (job.contract_type.getD "")
  let emp_lower := pyLower emp
  if pyIn "full" emp_lower || pyIn "полная" emp_lower then "⏰ Полная занятость"
  else if pyIn "part" emp_lower || pyIn "частичная" emp_lower then "⏱ Частичная занятость"
  else if pyIn "contract" emp_lower || pyIn "контракт" emp_lower then "📝 Контракт"
  else if emp ≠ "" then "⏰ " ++ emp
  else "⏰ Не указана"

/-- Gregorian leap year test (as used by Python `datetime`). -/
def isLeapYear (y : Nat) : Bool := (y % 4 = 0 && y % 100 ≠ 0) || y % 400 = 0

/-- Number of days in a month of the proleptic Gregorian calendar. -/
def daysInMonth (y m : Nat) : Nat :=
  if m = 2 then (if isLeapYear y then 29 else 28)
  else if m ∈ ([4, 6, 9, 11] : List Nat) then 30 else 31

/-- Decimal value of a digit character. -/
def digitVal (c : Char) : Nat := c.toNat - 48

/-- Modelled date parse: the Python code first tries
`datetime.fromisoformat(str(date_raw).replace('Z', '+00:00'))` and then
`datetime.strptime(str(date_raw)[:10], '%Y-%m-%d')`; only the year, month and
day reach the rendered output, so both attempts are modelled together as
parsing a calendar-valid zero-padded `YYYY-MM-DD` prefix. -/
def parseYMD (s : String) : Option (Nat × Nat × Nat) :=
  match s.data with
  | y1 :: y2 :: y3 :: y4 :: '-' :: m1 :: m2 :: '-' :: d1 :: d2 :: _ =>
    if ([y1, y2, y3, y4, m1, m2, d1, d2].all Char.isDigit) then
      let y := ((digitVal y1 * 10 + digitVal y2) * 10 + digitVal y3) * 10 + digitVal y4
      let m := digitVal m1 * 10 + digitVal m2
      let d := digitVal d1 * 10 + digitVal d2
      if 1 ≤ m ∧ m ≤ 12 ∧ 1 ≤ d ∧ d ≤ daysInMonth y m then some (y, m, d) else none
    else none
  | _ => none

/-- The Russian month abbreviations `months_ru` from `channel_bot.py`. -/
def months_ru : List String :=
  ["янв", "фев", "мар", "апр", "май", "июн", "июл", "авг", "сен", "окт", "ноя", "дек"]

/-- `extract_posted_date` from `channel_bot.py`: the first non-empty of four
possible date keys rendered as `D <ru-month> YYYY`, with the sentinel
`"Недавно"` for an absent or unparsable value. -/
def extract_posted_date (job : Job) : String :=
  let date_raw := pyOrStr (pyOrStr (pyOrStr (job.published.getD "") (job.created.getD ""))
    (job.publication_date.getD "")) (job.date_published.getD "")
  if date_raw = "" then "Недавно"
  else
    match parseYMD date_raw with
    | some (y, m, d) => toString d ++ " " ++ months_ru.getD (m - 1) "" ++ " " ++ toString y
    | none => "Недавно"

/-! ## HTML escaping and message formatting -/

/-- Python `str.replace` for a single-character pattern: every occurrence of
`c` is replaced by `r` (single-character patterns cannot overlap, so the
replacement is character-wise). -/
def replaceChar (c : Char) (r : List Char) : List Char → List Char
  | [] => []
  | x :: xs => (if x = c then r else [x]) ++ replaceChar c r xs

/-- `escape_html` from `channel_bot.py`: `&` is replaced first, then `<`, `>`
and `"`, exactly as the chained Python `str.replace` calls. -/
def escape_html (text : String) : String :=
  if text = "" then ""
  else
    ⟨replaceChar '"' "&quot;".data
      (replaceChar '>' "&gt;".data
        (replaceChar '<' "&lt;".data
          (replaceChar '&' "&amp;".data text.data)))⟩

/-- The `parts` list assembled by `format_job_message`. -/
def format_parts (job : Job) : List String :=
  let level := job.level.getD "Junior"
  let emoji := if level = "Junior" then "🟢" else if level = "Middle" then "🟡" else "🔵"
  let salary := extract_salary job
  let skills := extract_skills job
  let posted_date := extract_posted_date job
  let employment := extract_employment_type job
  let description := extract_description job
  let title := escape_html job.title
  let company := escape_html job.company
  let location := escape_html (job.location.getD "Remote")
  let source := escape_html job.source
  let url0 := pyStrip (job.url.getD "")
  let url := if url0 = "" || !(pyStartsWith url0 "http") then "https://example.com" else url0
  [emoji ++ " <b>" ++ title ++ "</b>",
   "",
   "🏢 <b>Компания:</b> " ++ company,
   "📍 <b>Локация:</b> " ++ location,
   "💵 <b>Зарплата:</b> " ++ salary,
   "🎯 <b>Уровень:</b> " ++ level,
   "📅 <b>Дата публикации:</b> " ++ posted_date,
   employment,
   "",
   "📋 <b>Описание:</b>",
   description,
   "",
   "<b>🛠 Навыки:</b>"] ++
  (if skills.isEmpty then ["  Не указаны"]
   else skills.map (fun skill => "  • " ++ escape_html skill)) ++
  ["",
   "🔗 <a href=\"" ++ url ++ "\">Откликнуться на вакансию</a>",
   "📌 Источник: " ++ source]

/-- The message assembled by `format_job_message` before the length check:
the `parts` list joined with newlines. -/
def format_job_message_raw (job : Job) : String :=
  pyJoin "\n" (format_parts job)

/-- `format_job_message` from `channel_bot.py`: the assembled message,
truncated (by the code) to its first 4090 characters plus a 32-character
marker when it exceeds 4096 characters. -/
def format_job_message (job : Job) : String :=
  let message := format_job_message_raw job
  if message.length > 4096 then
    (⟨message.data.take 4090⟩ : String) ++ "...\n<i>(сообщение сокращено)</i>"
  else message

/-! ## Byte-level primitives for the fingerprint hashes

`hashlib.sha256` and `hashlib.md5` are implemented over lists of bytes
(naturals below 256), with all 32-bit machine arithmetic expressed as `Nat`
operations reduced modulo `2 ^ 32`. -/

/-- The modulus of 32-bit machine arithmetic. -/
def M32 : Nat := 4294967296

/-- 32-bit addition. -/
def add32 (a b : Nat) : Nat := (a + b) % M32

/-- 32-bit bitwise complement. -/
def not32 (a : Nat) : Nat := a ^^^ 4294967295

/-- 32-bit right rotation by `n` places. -/
def rotr32 (n a : Nat) : Nat := (a >>> n) ||| ((a <<< (32 - n)) % M32)

/-- 32-bit left rotation by `n` places. -/
def rotl32 (n a : Nat) : Nat := ((a <<< n) % M32) ||| (a >>> (32 - n))

/-- UTF-8 encoding of one Unicode scalar value (Python `str.encode()`). -/
def utf8EncodeChar (c : Char) : List Nat :=
  let n := c.toNat
  if n < 128 then [n]
  else if n < 2048 then [192 + n / 64, 128 + n % 64]
  else if n < 65536 then [224 + n / 4096, 128 + (n / 64) % 64, 128 + n % 64]
  else [240 + n / 262144, 128 + (n / 4096) % 64, 128 + (n / 64) % 64, 128 + n % 64]

/-- UTF-8 encoding of a string as a byte list (Python `str.encode()`). -/
def utf8Encode (s : String) : List Nat := s.data.flatMap utf8EncodeChar

/-- The eight bytes of `n` in big-endian order (the SHA-256 length field). -/
def lenBytesBE (n : Nat) : List Nat :=
  [(n >>> 56) % 256, (n >>> 48) % 256, (n >>> 40) % 256, (n >>> 32) % 256,
   (n >>> 24) % 256, (n >>> 16) % 256, (n >>> 8) % 256, n % 256]

/-- The eight bytes of `n` in little-endian order (the MD5 length field). -/
def lenBytesLE (n : Nat) : List Nat :=
  [n % 256, (n >>> 8) % 256, (n >>> 16) % 256, (n >>> 24) % 256,
   (n >>> 32) % 256, (n >>> 40) % 256, (n >>> 48) % 256, (n >>> 56) % 256]

/-- Merkle-Damgard padding shared by MD5 and SHA-256: a `128` byte, zero
bytes up to 56 modulo 64, then the bit length as eight bytes (big-endian for
SHA-256, little-endian for MD5, chosen by the supplied serializer). -/
def padMessage (lenField : Nat → List Nat) (msg : List Nat) : List Nat :=
  let len := msg.length
  let padZeros := (64 - (len + 9) % 64) % 64
  msg ++ [128] ++ List.replicate padZeros 0 ++ lenField (8 * len)

/-- Split a byte list into 64-byte blocks. -/
def chunks64 (l : List Nat) : List (List Nat) :=
  if h : l = [] then [] else l.take 64 :: chunks64 (l.drop 64)
termination_by l.length
decreasing_by
  simp [List.length_drop]
  exact List.length_pos.mpr h

/-- Big-endian 32-bit words of a byte list. -/
def wordsBE : List Nat → List Nat
  | b0 :: b1 :: b2 :: b3 :: rest =>
    (((b0 * 256 + b1) * 256 + b2) * 256 + b3) :: wordsBE rest
  | _ => []

/-- Little-endian 32-bit words of a byte list. -/
def wordsLE : List Nat → List Nat
  | b0 :: b1 :: b2 :: b3 :: rest =>
    (((b3 * 256 + b2) * 256 + b1) * 256 + b0) :: wordsLE rest
  | _ => []

/-- The four bytes of a 32-bit word in big-endian order. -/
def wordBytesBE (w : Nat) : List Nat :=
  [(w >>> 24) % 256, (w >>> 16) % 256, (w >>> 8) % 256, w % 256]

/-- The four bytes of a 32-bit word in little-endian order. -/
def wordBytesLE (w : Nat) : List Nat :=
  [w % 256, (w >>> 8) % 256, (w >>> 16) % 256, (w >>> 24) % 256]

/-- The lowercase hexadecimal digits. -/
def hexChars : List Char := "0123456789abcdef".data

/-- The lowercase hexadecimal digit of `n % 16`. -/
def hexChar (n : Nat) : Char := hexChars.getD (n % 16) '0'

/-- Lowercase hexadecimal rendering of a byte list, two digits per byte
(Python `hexdigest()`). -/
def bytesToHex (bs : List Nat) : String :=
  ⟨bs.flatMap (fun b => [hexChar (b / 16), hexChar (b % 16)])⟩

/-! ## SHA-256 -/

/-- The SHA-256 round constants. -/
def SHA256_K : List Nat :=
  [1116352408, 1899447441, 3049323471, 3921009573, 961987163, 1508970993, 2453635748, 2870763221,
   3624381080, 310598401, 607225278, 1426881987, 1925078388, 2162078206, 2614888103, 3248222580,
   3835390401, 4022224774, 264347078, 604807628, 770255983, 1249150122, 1555081692, 1996064986,
   2554220882, 2821834349, 2952996808, 3210313671, 3336571891, 3584528711, 113926993, 338241895,
   666307205, 773529912, 1294757372, 1396182291, 1695183700, 1986661051, 2177026350, 2456956037,
   2730485921, 2820302411, 3259730800, 3345764771, 3516065817, 3600352804, 4094571909, 275423344,
   430227734, 506948616, 659060556, 883997877, 958139571, 1322822218, 1537002063, 1747873779,
   1955562222, 2024104815, 2227730452, 2361852424, 2428436474, 2756734187, 3204031479, 3329325298]

/-- The state of the SHA-256 compression function. -/
structure SHA256State where
  a : Nat
  b : Nat
  c : Nat
  d : Nat
  e : Nat
  f : Nat
  g : Nat
  h : Nat

/-- The SHA-256 initial hash value. -/
def sha256Init : SHA256State :=
  ⟨1779033703, 3144134277, 1013904242, 2773480762, 1359893119, 2600822924, 528734635, 1541459225⟩

/-- Extend the 16 message words by `fuel` further schedule words. -/
def shaExtendLoop : Nat → List Nat → List Nat
  | 0, w => w
  | fuel + 1, w =>
    let i := w.length
    let w15 := w.getD (i - 15) 0
    let w2 := w.getD (i - 2) 0
    let s0 := (rotr32 7 w15) ^^^ (rotr32 18 w15) ^^^ (w15 >>> 3)
    let s1 := (rotr32 17 w2) ^^^ (rotr32 19 w2) ^^^ (w2 >>> 10)
    shaExtendLoop fuel (w ++ [add32 (add32 (w.getD (i - 16) 0) s0) (add32 (w.getD (i - 7) 0) s1)])

/-- The 64-word SHA-256 message schedule of a block. -/
def shaSchedule (w16 : List Nat) : List Nat := shaExtendLoop 48 w16

/-- One SHA-256 round, consuming a round constant paired with a schedule
word. -/
def shaRound (st : SHA256State) (kw : Nat × Nat) : SHA256State :=
  let s1 := (rotr32 6 st.e) ^^^ (rotr32 11 st.e) ^^^ (rotr32 25 st.e)
  let ch := (st.e &&& st.f) ^^^ ((not32 st.e) &&& st.g)
  let temp1 := add32 (add32 (add32 st.h s1) (add32 ch kw.1)) kw.2
  let s0 := (rotr32 2 st.a) ^^^ (rotr32 13 st.a) ^^^ (rotr32 22 st.a)
  let maj := (st.a &&& st.b) ^^^ (st.a &&& st.c) ^^^ (st.b &&& st.c)
  let temp2 := add32 s0 maj
  ⟨add32 temp1 temp2, st.a, st.b, st.c, add32 st.d temp1, st.e, st.f, st.g⟩

/-- The SHA-256 compression function on one 64-byte block. -/
def shaCompressBlock (st : SHA256State) (block : List Nat) : SHA256State :=
  let w := shaSchedule (wordsBE block)
  let t := (SHA256_K.zip w).foldl shaRound st
  ⟨add32 st.a t.a, add32 st.b t.b, add32 st.c t.c, add32 st.d t.d,
   add32 st.e t.e, add32 st.f t.f, add32 st.g t.g, add32 st.h t.h⟩

/-- The 32 digest bytes of SHA-256 on a byte-list message. -/
def sha256Bytes (msg : List Nat) : List Nat :=
  let fin := (chunks64 (padMessage lenBytesBE msg)).foldl shaCompressBlock sha256Init
  wordBytesBE fin.a ++ wordBytesBE fin.b ++ wordBytesBE fin.c ++ wordBytesBE fin.d ++
    wordBytesBE fin.e ++ wordBytesBE fin.f ++ wordBytesBE fin.g ++ wordBytesBE fin.h

/-- Python `hashlib.sha256(msg).hexdigest()` on a byte-list message. -/
def sha256_hexdigest (msg : List Nat) : String := bytesToHex (sha256Bytes msg)

/-! ## MD5 -/

/-- The MD5 round constants (RFC 1321). -/
def MD5_K : List Nat :=
  [3614090360, 3905402710, 606105819, 3250441966, 4118548399, 1200080426, 2821735955, 4249261313,
   1770035416, 2336552879, 4294925233, 2304563134, 1804603682, 4254626195, 2792965006, 1236535329,
   4129170786, 3225465664, 643717713, 3921069994, 3593408605, 38016083, 3634488961, 3889429448,
   568446438, 3275163606, 4107603335, 1163531501, 2850285829, 4243563512, 1735328473, 2368359562,
   4294588738, 2272392833, 1839030562, 4259657740, 2763975236, 1272893353, 4139469664, 3200236656,
   681279174, 3936430074, 3572445317, 76029189, 3654602809, 3873151461, 530742520, 3299628645,
   4096336452, 1126891415, 2878612391, 4237533241, 1700485571, 2399980690, 4293915773, 2240044497,
   1873313359, 4264355552, 2734768916, 1309151649, 4149444226, 3174756917, 718787259, 3951481745]

/-- The MD5 per-round left-rotation amounts. -/
def MD5_S : List Nat :=
  [7, 12, 17, 22, 7, 12, 17, 22, 7, 12, 17, 22, 7, 12, 17, 22,
   5, 9, 14, 20, 5, 9, 14, 20, 5, 9, 14, 20, 5, 9, 14, 20,
   4, 11, 16, 23, 4, 11, 16, 23, 4, 11, 16, 23, 4, 11, 16, 23,
   6, 10, 15, 21, 6, 10, 15, 21, 6, 10, 15, 21, 6, 10, 15, 21]

/-- The state of the MD5 compression function. -/
structure MD5State where
  a : Nat
  b : Nat
  c : Nat
  d : Nat

/-- The MD5 initial state. -/
def md5Init : MD5State := ⟨1732584193, 4023233417, 2562383102, 271733878⟩

/-- The MD5 nonlinear function of round `i`. -/
def md5F (i b c d : Nat) : Nat :=
  if i < 16 then (b &&& c) ||| ((not32 b) &&& d)
  else if i < 32 then (d &&& b) ||| ((not32 d) &&& c)
  else if i < 48 then b ^^^ c ^^^ d
  else c ^^^ (b ||| (not32 d))

/-- The message-word index used in MD5 round `i`. -/
def md5G (i : Nat) : Nat :=
  if i < 16 then i
  else if i < 32 then (5 * i + 1) % 16
  else if i < 48 then (3 * i + 5) % 16
  else (7 * i) % 16

/-- One MD5 operation, consuming the round index paired with its constant. -/
def md5Round (w : List Nat) (st : MD5State) (ik : Nat × Nat) : MD5State :=
  let f := md5F ik.1 st.b st.c st.d
  let tmp := add32 (add32 (add32 st.a f) ik.2) (w.getD (md5G ik.1) 0)
  ⟨st.d, add32 st.b (rotl32 (MD5_S.getD ik.1 0) tmp), st.b, st.c⟩

/-- The MD5 compression function on one 64-byte block. -/
def md5CompressBlock (st : MD5State) (block : List Nat) : MD5State :=
  let w := wordsLE block
  let t := MD5_K.enum.foldl (md5Round w) st
  ⟨add32 st.a t.a, add32 st.b t.b, add32 st.c t.c, add32 st.d t.d⟩

/-- The 16 digest bytes of MD5 on a byte-list message. -/
def md5Bytes (msg : List Nat) : List Nat :=
  let fin := (chunks64 (padMessage lenBytesLE msg)).foldl md5CompressBlock md5Init
  wordBytesLE fin.a ++ wordBytesLE fin.b ++ wordBytesLE fin.c ++ wordBytesLE fin.d

/-- Python `hashlib.md5(msg).hexdigest()` on a byte-list message. -/
def md5_hexdigest (msg : List Nat) : String := bytesToHex (md5Bytes msg)

/-! ## Fingerprint derivation -/

/-- `generate_job_hash` from `channel_bot.py`: the first 16 hexadecimal digits
of the SHA-256 of the stripped URL when that is non-empty, otherwise the full
MD5 hexdigest of `"{title}_{company}"` with both parts lowercased. -/
def generate_job_hash (job : Job) : String :=
  let url := pyStrip (job.url.getD "")
  if url ≠ "" then
    ⟨(sha256_hexdigest (utf8Encode url)).data.take 16⟩
  else
    md5_hexdigest (utf8Encode (pyLower job.title ++ "_" ++ pyLower job.company))

/-! ## Deduplication store -/

/-- A row of the SQLite table `posted_jobs`. -/
structure PostedRecord where
  hash : String
  title : String
  company : String
  level : String
  url : String
  source : String
  postedAt : Int
  deriving DecidableEq, Repr

/-- The 7-day retention window of the deduplication store, in seconds
(`timedelta(days=7)`). -/
def retentionSeconds : Int := 7 * 86400

/-- The retention sweep of `is_duplicate_job`: the SQL statement
`DELETE FROM posted_jobs WHERE posted_at < ?` with threshold
`datetime.now() - timedelta(days=7)`; timestamps are seconds. -/
def cleanupStore (db : List PostedRecord) (now : Int) : List PostedRecord :=
  db.filter (fun r => !(decide (r.postedAt < now - retentionSeconds)))

/-- The row inserted by `is_duplicate_job` for a fresh job: the SQL `INSERT`
supplies hash, title, company, level (default `"Junior"`), url and source,
and the column default `CURRENT_TIMESTAMP` supplies `postedAt` — here the
injected `now`. -/
def newPostedRecord (job : Job) (now : Int) : PostedRecord :=
  ⟨generate_job_hash job, job.title, job.company, job.level.getD "Junior",
   job.url.getD "", job.source, now⟩

/-- `is_duplicate_job` from `channel_bot.py`, with the database connection
modelled as a list of rows threaded through explicitly and `datetime.now()`
injected as `now`: sweep expired rows, test existence by fingerprint, and
either report a duplicate (no insertion) or register the job and report it
fresh. -/
def is_duplicate_job (job : Job) (db : List PostedRecord) (now : Int) :
    Bool × List PostedRecord :=
  let db1 := cleanupStore db now
  let job_hash := generate_job_hash job
  if db1.any (fun r => r.hash == job_hash) then (true, db1)
  else (false, db1 ++ [newPostedRecord job now])

/-! ## Retry wrapper -/

/-- The sum of the decimal digits of a character list read as a number. -/
def digitsToNat (ds : List Char) : Nat := ds.foldl (fun acc c => acc * 10 + digitVal c) 0

/-- Python `int(s)` on a string: optional surrounding whitespace, an optional
sign, then one or more ASCII digits; `none` models the `ValueError` Python
raises on anything else (digit-grouping underscores and non-ASCII digits,
which Python additionally accepts, are not modelled — a claim hypothesis
requiring the parse to succeed is therefore only narrowed, never widened). -/
def pyParseInt (s : String) : Option Int :=
  match (pyStrip s).data with
  | '-' :: ds =>
    if ds ≠ [] ∧ ds.all Char.isDigit then some (-(digitsToNat ds : Int)) else none
  | '+' :: ds =>
    if ds ≠ [] ∧ ds.all Char.isDigit then some ((digitsToNat ds : Nat) : Int) else none
  | ds =>
    if ds ≠ [] ∧ ds.all Char.isDigit then some ((digitsToNat ds : Nat) : Int) else none

/-- The `response` object attached to a `requests.exceptions.HTTPError`: its
status code and the raw `Retry-After` header string, `none` when
`headers.get('Retry-After')` would miss (so that `get` returns the integer
default 60). -/
structure HttpResponse where
  status_code : Nat
  retryAfterHeader : Option String
  deriving DecidableEq, Repr

/-- The outcome of one invocation of a wrapped fetch function: a normal
return, a `requests.exceptions.HTTPError` carrying its (possibly absent)
response object, or any other exception. The response is `Option` because
`HTTPError.response` can be `None`, in which case the handler expression
`e.response.status_code` itself raises `AttributeError`. -/
inductive FetchOutcome where
  | ok (jobs : List Job)
  | httpError (response : Option HttpResponse)
  | exn
  deriving DecidableEq, Repr

/-- Whether a fetch outcome is a normal return. -/
def FetchOutcome.isOk : FetchOutcome → Bool
  | .ok _ => true
  | _ => false

/-- Whether the `except HTTPError` handler itself runs without raising on
this outcome: it does unless the error has no response object
(`e.response.status_code` raises `AttributeError`) or it is a 429 whose
`Retry-After` header is present but not an integer string
(`int(e.response.headers.get('Retry-After', 60))` raises `ValueError`). -/
def FetchOutcome.handlerOk : FetchOutcome → Bool
  | .httpError none => false
  | .httpError (some resp) =>
    if resp.status_code = 429 then
      match resp.retryAfterHeader with
      | none => true
      | some s => (pyParseInt s).isSome
    else true
  | _ => true

/-- An exception escaping `safe_fetch_with_retry` itself (raised by its
`except` handler, hence uncaught). -/
inductive PyError where
  | attributeError
  | valueError
  deriving DecidableEq, Repr

/-- The body of the `for attempt in range(max_retries)` loop of
`safe_fetch_with_retry`, over the list of remaining attempt indices: a normal
return is passed through; an `HTTPError` without a response object raises
`AttributeError` out of the wrapper; an HTTP 429 parses the `Retry-After`
header with `int(...)` — propagating `ValueError` when the header is present
but not an integer string — then waits and retries; any other HTTP error
breaks out of the loop; any other exception backs off and retries; an
exhausted loop falls through to `return []`. The sleeps do not affect the
returned value and are dropped by the model. -/
def retryLoop (fetch : Nat → FetchOutcome) : List Nat → Except PyError (List Job)
  | [] => Except.ok []
  | attempt :: rest =>
    match fetch attempt with
    | .ok r => Except.ok r
    | .httpError none => Except.error PyError.attributeError
    | .httpError (some resp) =>
      if resp.status_code = 429 then
        match resp.retryAfterHeader with
        | none => retryLoop fetch rest
        | some s =>
          match pyParseInt s with
          | some _ => retryLoop fetch rest
          | none => Except.error PyError.valueError
      else Except.ok []
    | .exn => retryLoop fetch rest

/-- `safe_fetch_with_retry` from `channel_bot.py`, with the wrapped fetch
function modelled as a map from attempt index to outcome; `Except.error`
models an exception propagating out of the wrapper. -/
def safe_fetch_with_retry (fetch : Nat → FetchOutcome) (max_retries : Nat := 3) :
    Except PyError (List Job) :=
  retryLoop fetch (List.range max_retries)

/-! ## Claim C2: exclusion keywords dominate classification -/

/-- Claim C2: for every job whose lowercased `title description` text
contains both `"senior"` and `"junior"` as substrings, `classify_job_level`
returns the excluded outcome (`none`), regardless of where the two signals
occur: exclusion keywords have absolute priority. -/
theorem C2_exclusion_absolute_priority (job : Job)
    (hs : pyIn "senior" (jobText job) = true)
    (_hj : pyIn "junior" (jobText job) = true) :
    classify_job_level job = none := by
  unfold classify_job_level
  simp only [EXCLUDE_SIGNALS, List.any_cons, hs, Bool.true_or, if_true]

/-- A job whose text contains both signals, junior first. -/
def c2job : Job := { title := "Junior or senior Developer", company := "Acme", source := "Remotive" }

/-- Witness for claim C2 at a concrete job. -/
theorem C2_witness :
    pyIn "senior" (jobText c2job) = true ∧ pyIn "junior" (jobText c2job) = true ∧
      classify_job_level c2job = none :=
  ⟨by decide, by decide, C2_exclusion_absolute_priority c2job (by decide) (by decide)⟩

/-! ## Claim C4: the floor-only salary phrase is unreachable for absent minima -/

/-- A job with no pre-formatted salary, no minimum, and a positive maximum. -/
def c4job : Job :=
  { title := "Dev", company := "Acme", source := "Remotive",
    maxSalary := some 5000, currency := some "USD" }

/-- Claim C4 (code bug): with no pre-formatted salary, an absent minimum and
`maxSalary = 5000`, the code returns the `"Не указана"` sentinel instead of
the floor-only phrase `"до $5,000 USD"` the claim describes: the guard
`if min_sal and max_sal and ...` is falsy when `min_sal` is `0`, so the
`elif max_sal > 0` branch is unreachable for absent minima. -/
theorem C4_floor_only_branch_dead :
    extract_salary c4job = "Не указана" ∧ extract_salary c4job ≠ "до $5,000 USD" := by
  decide

/-! ## Claim C5: the formatted range for min 3000, max 5000, USD -/

/-- Claim C5: for every job with an empty or absent pre-formatted salary
string, `minSalary = 3000`, `maxSalary = 5000` and `currency = "USD"`,
`extract_salary` returns exactly `"$3,000-$5,000 USD"`. -/
theorem C5_salary_range_format (job : Job)
    (hs : job.salary = none ∨ job.salary = some "")
    (hmin : job.minSalary = some 3000) (hmax : job.maxSalary = some 5000)
    (hcur : job.currency = some "USD") :
    extract_salary job = "$3,000-$5,000 USD" := by
  rcases hs with hs | hs <;>
    simp only [extract_salary, hs, hmin, hmax, hcur, pyOrInt, Option.getD_some, Option.getD_none] <;>
    norm_num <;> decide

/-- A job with the C5 salary fields. -/
def c5job : Job :=
  { title := "Dev", company := "Acme", source := "Remotive",
    minSalary := some 3000, maxSalary := some 5000, currency := some "USD" }

/-- Witness for claim C5 at a concrete job. -/
theorem C5_witness : extract_salary c5job = "$3,000-$5,000 USD" :=
  C5_salary_range_format c5job (Or.inl rfl) rfl rfl rfl

/-! ## Claim C7: remote + developer text -/

/-- A job text containing `"remote"` and `"developer"`, no exclusion keyword,
and the middle signal `"2-3 years"`. -/
def c7job : Job := { title := "remote developer 2-3 years", company := "Acme", source := "Remotive" }

/-- Claim C7 counterexample: this job text contains `"remote"` and
`"developer"` and no exclusion (seniority) keyword, yet `classify_job_level`
returns `Middle`, not `Junior`, because the middle signal `"2-3 years"`
matches and the claim does not exclude middle signals. -/
theorem C7_counterexample :
    pyIn "remote" (jobText c7job) = true ∧ pyIn "developer" (jobText c7job) = true ∧
      EXCLUDE_SIGNALS.all (fun w => !(pyIn w (jobText c7job))) = true ∧
      is_suitable_job c7job = true ∧ classify_job_level c7job = some "Middle" := by
  decide

/-- Claim C7 as amended: for every job whose text contains `"remote"` and
`"developer"`, contains no exclusion keyword, and moreover either contains a
junior signal or contains no middle signal, `is_suitable_job` is true and
`classify_job_level` returns `Junior`. -/
theorem C7_remote_developer_junior (job : Job)
    (hr : pyIn "remote" (jobText job) = true)
    (hd : pyIn "developer" (jobText job) = true)
    (hex : ∀ w ∈ EXCLUDE_SIGNALS, pyIn w (jobText job) = false)
    (hjm : (∃ w ∈ JUNIOR_SIGNALS, pyIn w (jobText job) = true) ∨
      (∀ w ∈ MIDDLE_SIGNALS, pyIn w (jobText job) = false)) :
    is_suitable_job job = true ∧ classify_job_level job = some "Junior" := by
  have hit : IT_ROLES.any (fun role => pyIn role (jobText job)) = true :=
    List.any_eq_true.mpr ⟨"developer", by simp [IT_ROLES], hd⟩
  constructor
  · have h1 : REMOTE_KEYWORDS.any (fun kw => pyIn kw (jobText job)) = true :=
      List.any_eq_true.mpr ⟨"remote", by simp [REMOTE_KEYWORDS], hr⟩
    unfold is_suitable_job
    simp [h1, hit]
  · have hexc : EXCLUDE_SIGNALS.any (fun w => pyIn w (jobText job)) = false := by
      simp only [List.any_eq_false]
      intro w hw
      simp [hex w hw]
    unfold classify_job_level
    rcases hjm with ⟨w, hw, hpw⟩ | hmid
    · have hj : JUNIOR_SIGNALS.any (fun sig => pyIn sig (jobText job)) = true :=
        List.any_eq_true.mpr ⟨w, hw, hpw⟩
      simp [hexc, hj]
    · have hm : MIDDLE_SIGNALS.any (fun sig => pyIn sig (jobText job)) = false := by
        simp only [List.any_eq_false]
        intro w hw
        simp [hmid w hw]
      by_cases hj : JUNIOR_SIGNALS.any (fun sig => pyIn sig (jobText job)) = true
      · simp [hexc, hj]
      · simp only [Bool.not_eq_true] at hj
        simp [hexc, hj, hm, hit]

/-- A job text containing `"remote"` and `"developer"` and no seniority
signal at all. -/
def c7wjob : Job := { title := "remote developer", company := "Acme", source := "Remotive" }

/-- Witness for the amended claim C7 at a concrete job. -/
theorem C7_witness : is_suitable_job c7wjob = true ∧ classify_job_level c7wjob = some "Junior" :=
  C7_remote_developer_junior c7wjob (by decide) (by decide) (by decide) (Or.inr (by decide))

/-! ## Claims C6 and C10: fingerprint derivation -/

/-- The SHA-256 digest always has 32 bytes. -/
theorem sha256Bytes_length (msg : List Nat) : (sha256Bytes msg).length = 32 := by
  simp [sha256Bytes, wordBytesBE]

/-- The MD5 digest always has 16 bytes. -/
theorem md5Bytes_length (msg : List Nat) : (md5Bytes msg).length = 16 := by
  simp [md5Bytes, wordBytesLE]

/-- The length of a string is the length of its character data. -/
theorem string_length_data (s : String) : s.data.length = s.length := rfl

/-- The character count of the hexadecimal digit list of a byte list. -/
theorem hexData_length (bs : List Nat) :
    (bs.flatMap (fun b => [hexChar (b / 16), hexChar (b % 16)])).length = 2 * bs.length := by
  induction bs with
  | nil => rfl
  | cons b rest ih =>
    simp only [List.flatMap_cons, List.length_append, List.length_cons, List.length_nil, ih]
    omega

/-- Hexadecimal rendering doubles the byte count. -/
theorem bytesToHex_length (bs : List Nat) : (bytesToHex bs).length = 2 * bs.length :=
  hexData_length bs

/-- Every character produced by `hexChar` is a hexadecimal digit. -/
theorem hexChar_mem (n : Nat) : hexChar n ∈ hexChars := by
  have h16 : n % 16 < 16 := Nat.mod_lt _ (by norm_num)
  have hall : ∀ m, m < 16 → hexChars.getD m '0' ∈ hexChars := by decide
  exact hall _ h16

/-- Every character of a hexadecimal rendering is a hexadecimal digit. -/
theorem bytesToHex_chars (bs : List Nat) : ∀ c ∈ (bytesToHex bs).data, c ∈ hexChars := by
  intro c hc
  simp only [bytesToHex, List.mem_flatMap] at hc
  obtain ⟨b, _, hc⟩ := hc
  simp only [List.mem_cons, List.not_mem_nil, or_false] at hc
  rcases hc with rfl | rfl <;> exact hexChar_mem _

/-- Claim C6: fingerprint derivation is deterministic (byte-identical jobs
hash identically); two jobs differing only in `description` but sharing the
same non-empty `url` hash identically; and with an absent or empty `url` the
fingerprint depends only on the lowercased title and company. -/
theorem C6_fingerprint_determinism :
    (∀ j1 j2 : Job, j1 = j2 → generate_job_hash j1 = generate_job_hash j2) ∧
    (∀ (j : Job) (u : String) (d1 d2 : Option String), j.url = some u → u ≠ "" →
      generate_job_hash { j with description := d1 } =
        generate_job_hash { j with description := d2 }) ∧
    (∀ j1 j2 : Job, (j1.url = none ∨ j1.url = some "") → (j2.url = none ∨ j2.url = some "") →
      pyLower j1.title = pyLower j2.title → pyLower j1.company = pyLower j2.company →
      generate_job_hash j1 = generate_job_hash j2) := by
  refine ⟨fun j1 j2 h => by rw [h], fun j u d1 d2 _ _ => rfl, fun j1 j2 h1 h2 ht hc => ?_⟩
  have e1 : pyStrip (j1.url.getD "") = "" := by rcases h1 with h | h <;> simp [h, pyStrip]
  have e2 : pyStrip (j2.url.getD "") = "" := by rcases h2 with h | h <;> simp [h, pyStrip]
  simp only [generate_job_hash, e1, e2, ht, hc, ne_eq, not_true_eq_false, if_false,
    reduceIte]

/-- A concrete job with a non-empty URL. -/
def c6jobA : Job :=
  { title := "T", company := "C", source := "Remotive",
    url := some "https://example.com/job/1", description := some "alpha" }

/-- A fallback-path job (no URL). -/
def c6fb1 : Job := { title := "Dev One", company := "ACME", source := "Remotive" }

/-- A fallback-path job with an explicitly empty URL and differently cased
title and company. -/
def c6fb2 : Job :=
  { title := "dev one", company := "acme", source := "Jobicy", url := some "" }

/-- Witness for claim C6 at concrete jobs. -/
theorem C6_witness :
    generate_job_hash { c6jobA with description := some "alpha" } =
        generate_job_hash { c6jobA with description := some "beta" } ∧
      generate_job_hash c6fb1 = generate_job_hash c6fb2 :=
  ⟨C6_fingerprint_determinism.2.1 c6jobA "https://example.com/job/1" (some "alpha")
      (some "beta") rfl (by decide),
   C6_fingerprint_determinism.2.2 c6fb1 c6fb2 (Or.inl rfl) (Or.inr rfl) (by decide) (by decide)⟩

/-- Claim C10: a URL-derived fingerprint is a 16-character hexadecimal
string, a fallback-derived fingerprint is a 32-character hexadecimal string,
and consequently the two shapes never collide. -/
theorem C10_fingerprint_shapes :
    (∀ job : Job, pyStrip (job.url.getD "") ≠ "" →
      (generate_job_hash job).length = 16 ∧
        ∀ c ∈ (generate_job_hash job).data, c ∈ hexChars) ∧
    (∀ job : Job, pyStrip (job.url.getD "") = "" →
      (generate_job_hash job).length = 32 ∧
        ∀ c ∈ (generate_job_hash job).data, c ∈ hexChars) ∧
    (∀ j1 j2 : Job, pyStrip (j1.url.getD "") ≠ "" → pyStrip (j2.url.getD "") = "" →
      generate_job_hash j1 ≠ generate_job_hash j2) := by
  have hsha : ∀ msg, (sha256_hexdigest msg).length = 64 := by
    intro msg
    show (bytesToHex (sha256Bytes msg)).length = 64
    rw [bytesToHex_length, sha256Bytes_length]
  have hmd5 : ∀ msg, (md5_hexdigest msg).length = 32 := by
    intro msg
    show (bytesToHex (md5Bytes msg)).length = 32
    rw [bytesToHex_length, md5Bytes_length]
  have hurl : ∀ job : Job, pyStrip (job.url.getD "") ≠ "" →
      (generate_job_hash job).length = 16 ∧
        ∀ c ∈ (generate_job_hash job).data, c ∈ hexChars := by
    intro job h
    simp only [generate_job_hash, h, ne_eq, not_false_eq_true, if_true, reduceIte]
    constructor
    · show (List.take 16 _).length = 16
      rw [List.length_take, string_length_data]
      have := hsha (utf8Encode (pyStrip (job.url.getD "")))
      omega
    · intro c hc
      exact bytesToHex_chars _ c (List.take_subset 16 _ hc)
  have hfb : ∀ job : Job, pyStrip (job.url.getD "") = "" →
      (generate_job_hash job).length = 32 ∧
        ∀ c ∈ (generate_job_hash job).data, c ∈ hexChars := by
    intro job h
    simp only [generate_job_hash, h, ne_eq, not_true_eq_false, if_false, reduceIte]
    exact ⟨hmd5 _, bytesToHex_chars _⟩
  refine ⟨hurl, hfb, fun j1 j2 h1 h2 heq => ?_⟩
  have l1 := (hurl j1 h1).1
  have l2 := (hfb j2 h2).1
  rw [heq, l2] at l1
  omega

/-- A concrete URL-path job and fallback-path job for the C10 witness. -/
def c10jobB : Job := { title := "Dev", company := "Acme", source := "Jobicy" }

/-- Witness for claim C10 at concrete jobs. -/
theorem C10_witness :
    (generate_job_hash c6jobA).length = 16 ∧ (generate_job_hash c10jobB).length = 32 ∧
      generate_job_hash c6jobA ≠ generate_job_hash c10jobB :=
  ⟨(C10_fingerprint_shapes.1 c6jobA (by decide)).1,
   (C10_fingerprint_shapes.2.1 c10jobB (by decide)).1,
   C10_fingerprint_shapes.2.2 c6jobA c10jobB (by decide) (by decide)⟩

/-! ## Claim C1: deduplication lifecycle -/

/-- Claim C1: starting from an empty store, `is_duplicate_job` returns
`false` on the first call and registers a `PostedRecord` carrying the
injected current timestamp; every subsequent call with the same job returns
`true` (leaving the store unchanged) as long as at most 7 days have elapsed
past the registration; once more than 7 days have elapsed the record has been
swept and the call returns `false` again. -/
theorem C1_dedup_lifecycle (job : Job) (t0 t : Int) :
    (is_duplicate_job job [] t0).1 = false ∧
    (is_duplicate_job job [] t0).2 = [newPostedRecord job t0] ∧
    (t ≤ t0 + retentionSeconds →
      (is_duplicate_job job [newPostedRecord job t0] t).1 = true ∧
      (is_duplicate_job job [newPostedRecord job t0] t).2 = [newPostedRecord job t0]) ∧
    (t0 + retentionSeconds < t →
      (is_duplicate_job job [newPostedRecord job t0] t).1 = false) := by
  refine ⟨by simp [is_duplicate_job, cleanupStore], by simp [is_duplicate_job, cleanupStore],
    fun h => ?_, fun h => ?_⟩
  · have hc : cleanupStore [newPostedRecord job t0] t = [newPostedRecord job t0] := by
      have hk : ¬ ((newPostedRecord job t0).postedAt < t - retentionSeconds) := by
        simp only [newPostedRecord]
        omega
      simp [cleanupStore, hk]
    simp only [is_duplicate_job]
    rw [hc]
    simp [newPostedRecord]
  · have hc : cleanupStore [newPostedRecord job t0] t = [] := by
      have hk : (newPostedRecord job t0).postedAt < t - retentionSeconds := by
        simp only [newPostedRecord]
        omega
      simp [cleanupStore, hk]
    simp only [is_duplicate_job]
    rw [hc]
    simp

/-- A concrete job for the C1 witness. -/
def c1job : Job :=
  { title := "Dev", company := "Acme", source := "Remotive",
    url := some "https://example.com/j/9" }

/-- Witness for claim C1: fresh at time 0, duplicate at exactly 7 days,
fresh again one second past 7 days. -/
theorem C1_witness :
    (is_duplicate_job c1job [] 0).1 = false ∧
      (is_duplicate_job c1job [newPostedRecord c1job 0] 604800).1 = true ∧
      (is_duplicate_job c1job [newPostedRecord c1job 0] 604801).1 = false :=
  ⟨(C1_dedup_lifecycle c1job 0 0).1,
   ((C1_dedup_lifecycle c1job 0 604800).2.2.1 (by decide)).1,
   (C1_dedup_lifecycle c1job 0 604801).2.2.2 (by decide)⟩

/-! ## Claim C9: the retry wrapper and propagated failures -/

deriving instance DecidableEq for Except

/-- A fetch function that on every attempt raises an HTTP 429 whose
`Retry-After` header is an RFC 7231 HTTP-date rather than an integer
string. -/
def c9badfetch : Nat → FetchOutcome :=
  fun _ => FetchOutcome.httpError (some ⟨429, some "Wed, 21 Oct 2015 07:28:00 GMT"⟩)

/-- Claim C9 counterexample: this wrapped function fails on every attempt
below the ceiling of 3, yet `safe_fetch_with_retry` does not return the
empty list — it propagates the `ValueError` that
`int(e.response.headers.get('Retry-After', 60))` raises on the non-integer
header, so the wrapper is not exception-free on all failing inputs. -/
theorem C9_counterexample :
    (∀ i, i < 3 → (c9badfetch i).isOk = false) ∧
      safe_fetch_with_retry c9badfetch 3 = Except.error PyError.valueError ∧
      safe_fetch_with_retry c9badfetch 3 ≠ Except.ok [] := by
  decide

/-- If every attempted invocation fails and none of the failures trips the
`except` handler itself, the retry loop falls through to the empty list: the
429 path parses the header and retries, the generic-exception path retries,
and the other-HTTP-error path breaks straight to the empty result. -/
theorem retryLoop_all_fail (fetch : Nat → FetchOutcome) :
    ∀ l : List Nat, (∀ i ∈ l, (fetch i).isOk = false) →
      (∀ i ∈ l, (fetch i).handlerOk = true) → retryLoop fetch l = Except.ok []
  | [], _, _ => rfl
  | a :: rest, hf, hs => by
    have hfa := hf a (List.mem_cons_self a rest)
    have hsa := hs a (List.mem_cons_self a rest)
    have hfrest : ∀ i ∈ rest, (fetch i).isOk = false :=
      fun i hi => hf i (List.mem_cons_of_mem a hi)
    have hsrest : ∀ i ∈ rest, (fetch i).handlerOk = true :=
      fun i hi => hs i (List.mem_cons_of_mem a hi)
    cases hfe : fetch a with
    | ok jobs =>
      rw [hfe] at hfa
      simp [FetchOutcome.isOk] at hfa
    | httpError response =>
      rw [hfe] at hsa
      cases response with
      | none => simp [FetchOutcome.handlerOk] at hsa
      | some resp =>
        simp only [retryLoop, hfe]
        by_cases h429 : resp.status_code = 429
        · simp only [FetchOutcome.handlerOk, h429, if_true] at hsa
          cases hh : resp.retryAfterHeader with
          | none => simp [h429, hh, retryLoop_all_fail fetch rest hfrest hsrest]
          | some s =>
            rw [hh] at hsa
            obtain ⟨v, hv⟩ := Option.isSome_iff_exists.mp hsa
            simp [h429, hh, hv, retryLoop_all_fail fetch rest hfrest hsrest]
        · simp [h429]
    | exn =>
      simp only [retryLoop, hfe]
      exact retryLoop_all_fail fetch rest hfrest hsrest

/-- Claim C9 as amended: whenever the wrapped fetch function fails on every
attempt below the attempt ceiling, and no failing attempt is an `HTTPError`
without a response object or a 429 carrying a non-integer `Retry-After`
header (the two cases in which the handler itself raises),
`safe_fetch_with_retry` returns the empty list rather than raising. -/
theorem C9_retry_returns_empty (fetch : Nat → FetchOutcome) (max_retries : Nat)
    (hfail : ∀ i, i < max_retries → (fetch i).isOk = false)
    (hsafe : ∀ i, i < max_retries → (fetch i).handlerOk = true) :
    safe_fetch_with_retry fetch max_retries = Except.ok [] := by
  unfold safe_fetch_with_retry
  exact retryLoop_all_fail fetch (List.range max_retries)
    (fun i hi => hfail i (List.mem_range.mp hi))
    (fun i hi => hsafe i (List.mem_range.mp hi))

/-- A fetch function that raises a generic exception on every attempt. -/
def c9fetch : Nat → FetchOutcome := fun _ => FetchOutcome.exn

/-- Witness for the amended claim C9 at the default attempt ceiling of 3. -/
theorem C9_witness : safe_fetch_with_retry c9fetch 3 = Except.ok [] :=
  C9_retry_returns_empty c9fetch 3 (by decide) (by decide)

/-! ## Claim C8: skills extraction -/

/-- `addIfNew` preserves freedom from duplicates. -/
theorem addIfNew_nodup (l : List String) (s : String) (h : l.Nodup) : (addIfNew l s).Nodup := by
  unfold addIfNew
  split
  · exact h
  · rename_i hs
    simp [List.nodup_append, h, hs]

/-- Folding conditional set insertions preserves freedom from duplicates. -/
theorem foldl_addIfNew_nodup {α : Type} (p : α → Prop) [DecidablePred p] (f : α → String) :
    ∀ (l : List α) (acc : List String), acc.Nodup →
      (l.foldl (fun acc x => if p x then addIfNew acc (f x) else acc) acc).Nodup
  | [], _, h => h
  | x :: rest, acc, h => by
    simp only [List.foldl_cons]
    apply foldl_addIfNew_nodup p f rest
    split
    · exact addIfNew_nodup acc (f x) h
    · exact h

/-- The accumulated skill set contains no duplicates. -/
theorem skillsSet_nodup (job : Job) : (skillsSet job).Nodup := by
  unfold skillsSet
  exact foldl_addIfNew_nodup _ _ TECH_STACK _
    (foldl_addIfNew_nodup _ _ job.tags [] List.nodup_nil)

/-- The concrete job of the C8 example: title `"Senior Python Developer"`,
tags `["Docker", "python"]`. -/
def c8job : Job :=
  { title := "Senior Python Developer", company := "Acme", source := "Remotive",
    tags := ["Docker", "python"] }

/-- Claim C8: for every job, `extract_skills` returns at most 5 entries —
exactly `min 5 (size of the union)` of them, so nothing below the cap is ever
dropped — sorted ascending in the Python code-point lexicographic order, free
of duplicates, drawn from the union of short title-cased tags and matched
technology-stack keywords, and consisting of the lexicographically smallest
elements of that union (every omitted union element is at least every kept
one; with the cardinality conjunct this pins the result to exactly the
sorted union truncated to the 5 smallest); and on the example job the result
is exactly `["Docker", "Python"]`, containing `"Docker"` and `"Python"` once
each. -/
theorem C8_skills_sorted_bounded :
    (∀ job : Job,
      (extract_skills job).length ≤ 5 ∧
      (extract_skills job).length = min 5 (skillsSet job).length ∧
      (extract_skills job).Sorted pyLe ∧
      (extract_skills job).Nodup ∧
      (∀ s ∈ extract_skills job, s ∈ skillsSet job) ∧
      (∀ s ∈ skillsSet job, s ∉ extract_skills job → ∀ t ∈ extract_skills job, pyLe t s)) ∧
    extract_skills c8job = ["Docker", "Python"] := by
  constructor
  · intro job
    have hperm : List.Perm (List.insertionSort pyLe (skillsSet job)) (skillsSet job) :=
      List.perm_insertionSort pyLe (skillsSet job)
    have hsorted : (List.insertionSort pyLe (skillsSet job)).Sorted pyLe :=
      List.sorted_insertionSort pyLe (skillsSet job)
    have hnodupL : (List.insertionSort pyLe (skillsSet job)).Nodup :=
      hperm.nodup_iff.mpr (skillsSet_nodup job)
    have hout : extract_skills job = (List.insertionSort pyLe (skillsSet job)).take 5 := rfl
    refine ⟨?_, ?_, ?_, ?_, ?_, ?_⟩
    · rw [hout]
      exact List.length_take_le 5 _
    · rw [hout, List.length_take, hperm.length_eq]
    · rw [hout]
      exact List.Pairwise.sublist (List.take_sublist 5 _) hsorted
    · rw [hout]
      exact List.Nodup.sublist (List.take_sublist 5 _) hnodupL
    · intro s hs
      rw [hout] at hs
      exact hperm.mem_iff.mp (List.take_subset 5 _ hs)
    · intro s hsSet hsOut t htOut
      have hsL : s ∈ List.insertionSort pyLe (skillsSet job) := hperm.mem_iff.mpr hsSet
      rw [hout] at hsOut htOut
      rw [← List.take_append_drop 5 (List.insertionSort pyLe (skillsSet job))] at hsL
      rcases List.mem_append.mp hsL with h | h
      · exact absurd h hsOut
      · have hpw := hsorted
        rw [← List.take_append_drop 5 (List.insertionSort pyLe (skillsSet job))] at hpw
        exact (List.pairwise_append.mp hpw).2.2 t htOut s h
  · decide

/-- Witness for claim C8: the universally quantified part applied at the
example job, with the membership hypothesis discharged concretely. -/
theorem C8_witness :
    (extract_skills c8job).length ≤ 5 ∧
      (extract_skills c8job).length = min 5 (skillsSet c8job).length ∧
      "Docker" ∈ skillsSet c8job :=
  ⟨(C8_skills_sorted_bounded.1 c8job).1,
   (C8_skills_sorted_bounded.1 c8job).2.1,
   (C8_skills_sorted_bounded.1 c8job).2.2.2.2.1 "Docker" (by decide)⟩

/-! ## Claim C3: message truncation -/

/-- Replacement leaves a list not containing the pattern character
unchanged. -/
theorem replaceChar_not_mem (ch : Char) (rep : List Char) :
    ∀ l : List Char, ch ∉ l → replaceChar ch rep l = l
  | [], _ => rfl
  | x :: xs, h => by
    have hx : ¬ x = ch := fun he => h (he ▸ List.mem_cons_self x xs)
    have hxs : ch ∉ xs := fun hm => h (List.mem_cons_of_mem x hm)
    simp only [replaceChar, if_neg hx, List.singleton_append, List.cons.injEq, true_and]
    exact replaceChar_not_mem ch rep xs hxs

/-- A string of `n > 0` copies of a character is not empty. -/
theorem mk_replicate_ne_empty (n : Nat) (c : Char) (hn : n ≠ 0) :
    (⟨List.replicate n c⟩ : String) ≠ "" := by
  intro he
  have hd : List.replicate n c = [] := congrArg String.data he
  simp [List.replicate_eq_nil_iff, hn] at hd

/-- The length of a string of `n` copies of a character. -/
theorem mk_replicate_length (n : Nat) (c : Char) :
    (⟨List.replicate n c⟩ : String).length = n := by
  show (List.replicate n c).length = n
  simp

/-- HTML escaping fixes a nonempty string made of the letter `a`. -/
theorem escape_html_replicate_a (n : Nat) (hn : n ≠ 0) :
    escape_html ⟨List.replicate n 'a'⟩ = ⟨List.replicate n 'a'⟩ := by
  have hmem : ∀ ch : Char, ch ≠ 'a' → ch ∉ List.replicate n 'a' := by
    intro ch hne hm
    exact hne (List.eq_of_mem_replicate hm)
  unfold escape_html
  rw [if_neg (mk_replicate_ne_empty n 'a' hn)]
  show (⟨replaceChar '"' "&quot;".data
    (replaceChar '>' "&gt;".data
      (replaceChar '<' "&lt;".data
        (replaceChar '&' "&amp;".data (List.replicate n 'a'))))⟩ : String) = _
  rw [replaceChar_not_mem '&' "&amp;".data _ (hmem '&' (by decide)),
      replaceChar_not_mem '<' "&lt;".data _ (hmem '<' (by decide)),
      replaceChar_not_mem '>' "&gt;".data _ (hmem '>' (by decide)),
      replaceChar_not_mem '"' "&quot;".data _ (hmem '"' (by decide))]

/-- A job whose assembled message exceeds 4096 characters: the location field
(inserted into the message without any length bound) is 3900 characters
long. -/
def c3job : Job :=
  { title := "Dev", company := "Acme", source := "Remotive",
    location := some ⟨List.replicate 3900 'a'⟩ }

/-- The parts list of the C3 job, with the 3900-character location line. -/
theorem c3_parts :
    format_parts c3job =
      ["🟢 <b>Dev</b>", "", "🏢 <b>Компания:</b> Acme",
       "📍 <b>Локация:</b> " ++ (⟨List.replicate 3900 'a'⟩ : String),
       "💵 <b>Зарплата:</b> Не указана", "🎯 <b>Уровень:</b> Junior",
       "📅 <b>Дата публикации:</b> Недавно", "⏰ Не указана", "",
       "📋 <b>Описание:</b>", "Описание не указано", "", "<b>🛠 Навыки:</b>",
       "  Не указаны", "",
       "🔗 <a href=\"https://example.com\">Откликнуться на вакансию</a>",
       "📌 Источник: Remotive"] := by
  simp only [format_parts]
  rw [show escape_html (c3job.location.getD "Remote") = (⟨List.replicate 3900 'a'⟩ : String)
        from escape_html_replicate_a 3900 (by decide),
      show c3job.level.getD "Junior" = "Junior" from rfl,
      show extract_salary c3job = "Не указана" from by decide,
      show extract_skills c3job = ([] : List String) from by decide,
      show extract_posted_date c3job = "Недавно" from by decide,
      show extract_employment_type c3job = "⏰ Не указана" from by decide,
      show extract_description c3job = "Описание не указано" from by decide,
      show escape_html c3job.title = "Dev" from by decide,
      show escape_html c3job.company = "Acme" from by decide,
      show escape_html c3job.source = "Remotive" from by decide,
      show pyStrip (c3job.url.getD "") = "" from by decide]
  simp only [List.isEmpty_nil, if_true, List.cons_append, List.nil_append, reduceIte]
  norm_num
  decide

/-- The assembled C3 message is 4212 characters long. -/
theorem c3_raw_length : (format_job_message_raw c3job).length = 4212 := by
  unfold format_job_message_raw
  rw [c3_parts]
  simp only [pyJoin, String.length_append, mk_replicate_length]
  decide

/-- Whenever the assembled message exceeds 4096 characters, the published
message is exactly 4122 characters long — 4090 kept characters plus the
32-character truncation marker — and ends with the marker. -/
theorem format_truncated_of_long (job : Job)
    (h : 4096 < (format_job_message_raw job).length) :
    (format_job_message job).length = 4122 ∧
      ∃ pre : String, format_job_message job = pre ++ "...\n<i>(сообщение сокращено)</i>" := by
  unfold format_job_message
  rw [if_pos (show (format_job_message_raw job).length > 4096 from h)]
  constructor
  · rw [String.length_append]
    have ht : ((⟨(format_job_message_raw job).data.take 4090⟩ : String)).length = 4090 := by
      show (List.take 4090 _).length = 4090
      rw [List.length_take, string_length_data]
      omega
    rw [ht]
    decide
  · exact ⟨_, rfl⟩

/-- Claim C3 (code bug): at the C3 job, the assembled message exceeds 4096
characters, and the truncated message does end with the truncation marker —
but its total length is 4122 characters, which still exceeds the 4096
character bound the claim (and the Telegram limit named in the code comment)
requires: the code keeps 4090 characters and then appends a 32-character
marker. -/
theorem C3_truncation_exceeds_limit :
    4096 < (format_job_message_raw c3job).length ∧
      (format_job_message c3job).length = 4122 ∧
      4096 < (format_job_message c3job).length ∧
      ∃ pre : String,
        format_job_message c3job = pre ++ "...\n<i>(сообщение сокращено)</i>" := by
  have hraw := c3_raw_length
  have hlong : 4096 < (format_job_message_raw c3job).length := by omega
  obtain ⟨hlen, hends⟩ := format_truncated_of_long c3job hlong
  exact ⟨hlong, hlen, by omega, hends⟩
